import Mathlib

set_option maxRecDepth 8000

/-!
Shallow embedding of the report-orchestration-and-section-routing pipeline of
the `llms-with-streamlit` repository (files `app/modules/report_generator.py`
and `app/modules/crew_agents.py`), together with theorems settling the frozen
claims about its specification.

Python strings are modelled by `String`; all string primitives the Python code
uses (`str.split`, `str.lower`, substring membership, `str.format`) are defined
below by structural recursion over the character list so that every definition
evaluates inside the kernel.  Python floats are modelled by exact (unnormalized)
fractions `Frac`; every numeric value the claims inspect is an exact decimal, so
no floating-point rounding is observable.  A pandas `DataFrame` is modelled
columnar-style as an association list of named, dtype-tagged cell columns, and
the in-place column assignment `df["Churn_bool"] = ...` of the source
is made explicit by returning the updated frame.  Fallible Python operations
(`astype` on missing values, `Index.__getitem__` on an empty index) return
`Except Unit`.
-/

/-- Python `str.split(sep)` on the character list: splitting the empty string
yields one empty piece, and a trailing separator yields a trailing empty piece. -/
def splitChar (sep : Char) : List Char → List (List Char)
  | [] => [[]]
  | c :: cs =>
    let rest := splitChar sep cs
    if c = sep then [] :: rest
    else
      match rest with
      | [] => [[c]]
      | r :: rs => (c :: r) :: rs

/-- Python `s.split(sep)` for a one-character separator. -/
def pySplit (sep : Char) (s : String) : List String :=
  (splitChar sep s.toList).map (fun l => String.mk l)

/-- Predicate `listStartsWith n h`: true when `n` is a prefix of `h`. -/
def listStartsWith : List Char → List Char → Bool
  | [], _ => true
  | _ :: _, [] => false
  | a :: as, b :: bs => a = b && listStartsWith as bs

/-- Predicate `charsContain n h`: true when `n` occurs contiguously inside `h`. -/
def charsContain (needle : List Char) : List Char → Bool
  | [] => listStartsWith needle []
  | c :: cs => listStartsWith needle (c :: cs) || charsContain needle cs

/-- Python `needle in hay` on strings (contiguous substring test). -/
def substrOf (needle hay : String) : Bool :=
  charsContain needle.toList hay.toList

/-- Python `str.lower()` (character-wise lowercasing). -/
def pyLower (s : String) : String :=
  String.mk (s.toList.map Char.toLower)

/-- Python `sep.join(pieces)`. -/
def joinSep (sep : String) : List String → String
  | [] => ""
  | [x] => x
  | x :: y :: rest => x ++ sep ++ joinSep sep (y :: rest)

/-- The decimal digit character for `n < 10`. -/
def digitChar (n : Nat) : Char := Char.ofNat (48 + n)

/-- Decimal digits of `n`, most significant first; `fuel` bounds the recursion
and is always passed as at least the number of digits. -/
def natDigits (fuel n : Nat) : List Char :=
  match fuel with
  | 0 => []
  | f + 1 => if n < 10 then [digitChar n] else natDigits f (n / 10) ++ [digitChar (n % 10)]

/-- Decimal rendering of a natural number. -/
def natToStr (n : Nat) : String := String.mk (natDigits (n + 1) n)

/-- Left-pad a digit string with zeros up to width `w`. -/
def padZeros (w : Nat) (s : String) : String :=
  String.mk (List.replicate (w - s.length) '0') ++ s

/-- An exact unnormalized fraction `num / den` (den `0` only arises from
aggregating an empty column, where pandas produces NaN; the formatter renders
that case as `0`). Models the Python floats of the source, all of whose
claim-visible values are exact decimals. -/
structure Frac where
  num : Int
  den : Nat
deriving DecidableEq

/-- Exact fraction addition (no normalization). -/
def Frac.add (a b : Frac) : Frac := ⟨a.num * b.den + b.num * a.den, a.den * b.den⟩

/-- Exact fraction multiplication (no normalization). -/
def Frac.mul (a b : Frac) : Frac := ⟨a.num * b.num, a.den * b.den⟩

/-- Division of a fraction by a natural number. -/
def Frac.divNat (a : Frac) (n : Nat) : Frac := ⟨a.num, a.den * n⟩

/-- Boolean `a ≤ b` on fractions (denominators are naturals, so cross
multiplication preserves the order). -/
def fracLe (a b : Frac) : Bool := a.num * (b.den : Int) ≤ b.num * (a.den : Int)

/-- Round `num / den` to the nearest integer, ties to even — the rounding Python
`format` applies to a float that is an exact half. `den = 0` renders as `0`. -/
def roundHalfEven (num : Int) (den : Nat) : Int :=
  if den = 0 then 0
  else
    let q := num.ediv den
    let r := num.emod den
    if 2 * r < den then q
    else if 2 * r > den then q + 1
    else if q.emod 2 = 0 then q else q + 1

/-- Digits of the scaled magnitude `m` rendered with `prec` places after the
decimal point (`m` is the value multiplied by `10 ^ prec`). -/
def fmtScaled (prec m : Nat) : String :=
  let scale := 10 ^ prec
  natToStr (m / scale) ++ "." ++ padZeros prec (natToStr (m % scale))

/-- Python `f"{x:.<prec>f}"` fixed-point formatting of a fraction. -/
def fmtFixed (prec : Nat) (f : Frac) : String :=
  let m := roundHalfEven (f.num * (10 ^ prec : Nat)) f.den
  if m < 0 then "-" ++ fmtScaled prec m.natAbs else fmtScaled prec m.natAbs

/-- A single cell of a pandas column: a native boolean, a string, a numeric
value, or a missing value (NaN / None). -/
inductive Cell
  | b (x : Bool)
  | s (x : String)
  | n (x : Frac)
  | na
deriving DecidableEq

/-- The pandas dtype of a column, as far as the source inspects it
(`df["Churn"].dtype == bool`): native boolean, object (strings / mixed), or
numeric. -/
inductive Dtype
  | boolT
  | objT
  | numT
deriving DecidableEq

/-- One pandas column: a dtype tag plus the list of cells in row order. -/
structure Column where
  dtype : Dtype
  cells : List Cell
deriving DecidableEq

/-- A pandas DataFrame, modelled columnar-style: named columns in order. -/
structure DataFrame where
  cols : List (String × Column)
deriving DecidableEq

/-- Column lookup, `df[name]`; `none` models both `name in df.columns` being
false and the `KeyError` that indexing would raise. -/
def DataFrame.getCol? (df : DataFrame) (name : String) : Option Column :=
  (df.cols.find? (fun c => c.1 = name)).map (fun c => c.2)

/-- Python `name in df.columns`. -/
def DataFrame.hasCol (df : DataFrame) (name : String) : Bool :=
  (df.getCol? name).isSome

/-- Python `len(df)`: the number of rows (length of the first column; a frame
with no columns has zero rows). -/
def DataFrame.len (df : DataFrame) : Nat :=
  match df.cols with
  | [] => 0
  | c :: _ => c.2.cells.length

/-- In-place column assignment `df[name] = col`: overwrite the column if the
name exists, otherwise append it as the last column. -/
def DataFrame.setCol (df : DataFrame) (name : String) (col : Column) : DataFrame :=
  if df.hasCol name then
    ⟨df.cols.map (fun c => if c.1 = name then (name, col) else c)⟩
  else ⟨df.cols ++ [(name, col)]⟩

/-- All columns have exactly `df.len` cells (true of every real DataFrame). -/
def DataFrame.wf (df : DataFrame) : Prop :=
  ∀ c ∈ df.cols, c.2.cells.length = df.len

/-- pandas drops missing values before counting (`value_counts(dropna=True)`,
the default). -/
def dropna (cells : List Cell) : List Cell :=
  cells.filter (fun c => c ≠ Cell.na)

/-- First-encounter-ordered list of the distinct elements of a list. -/
def uniqueAux [DecidableEq α] (seen : List α) : List α → List α
  | [] => []
  | x :: xs => if x ∈ seen then uniqueAux seen xs else x :: uniqueAux (seen ++ [x]) xs

/-- Insert into a count-descending list, after every entry with count `≥` the
new one — so an insertion-sort fold over first-encounter order is stable and
breaks count ties by first encounter, as pandas `value_counts` does. -/
def insertDesc (x : α × Nat) : List (α × Nat) → List (α × Nat)
  | [] => [x]
  | y :: ys => if x.2 > y.2 then x :: y :: ys else y :: insertDesc x ys

/-- pandas `Series.value_counts()`: distinct non-missing values with their
multiplicities, sorted by descending count, ties in first-encounter order. -/
def Column.value_counts (c : Column) : List (Cell × Nat) :=
  let vals := dropna c.cells
  ((uniqueAux [] vals).map (fun v => (v, vals.count v))).foldl
    (fun acc x => insertDesc x acc) []

/-- pandas `Series.value_counts(normalize=True)`: counts divided by the number
of non-missing values. -/
def Column.value_counts_normalize (c : Column) : List (Cell × Frac) :=
  let total := (dropna c.cells).length
  c.value_counts.map (fun p => (p.1, ⟨(p.2 : Int), total⟩))

/-- Python `value_counts(normalize=True).get(True, 0)`: the normalized frequency of
the *boolean* key `True`, or `0` when no such category exists. -/
def Column.vcNormGetTrue (c : Column) : Frac :=
  match c.value_counts_normalize.find? (fun p => p.1 = Cell.b true) with
  | some p => p.2
  | none => ⟨0, 1⟩

/-- Numeric coercion a pandas aggregation applies to a cell: numbers are
themselves, booleans count as 0/1, missing values are skipped (`skipna`);
string cells are not exercised by any aggregated column in the claims. -/
def cellFrac : Cell → Option Frac
  | .n x => some x
  | .b x => some (if x then ⟨1, 1⟩ else ⟨0, 1⟩)
  | .s _ => none
  | .na => none

/-- pandas `Series.mean()` (an empty aggregation, NaN in pandas, is modelled by
a zero-denominator fraction, which the formatter renders as `0`). -/
def Column.mean (c : Column) : Frac :=
  let vals := c.cells.filterMap cellFrac
  Frac.divNat (vals.foldl Frac.add ⟨0, 1⟩) vals.length

/-- Insert into an ascending list (insertion-sort step for `median`). -/
def insertAsc (x : Frac) : List Frac → List Frac
  | [] => [x]
  | y :: ys => if fracLe x y then x :: y :: ys else y :: insertAsc x ys

/-- Ascending insertion sort on fractions. -/
def sortAsc (l : List Frac) : List Frac :=
  l.foldr insertAsc []

/-- pandas `Series.median()`: middle of the sorted values, or the mean of the
two middles for an even count. -/
def Column.median (c : Column) : Frac :=
  let vals := sortAsc (c.cells.filterMap cellFrac)
  let n := vals.length
  if n = 0 then ⟨0, 1⟩
  else if n % 2 = 1 then vals.getD (n / 2) ⟨0, 1⟩
  else Frac.divNat (Frac.add (vals.getD (n / 2 - 1) ⟨0, 1⟩) (vals.getD (n / 2) ⟨0, 1⟩)) 2

/-- pandas `Series.max()`. -/
def Column.maxVal (c : Column) : Frac :=
  match c.cells.filterMap cellFrac with
  | [] => ⟨0, 1⟩
  | x :: xs => xs.foldl (fun a b => if fracLe a b then b else a) x

/-- Decidable equality for `Except`, so that concrete runs of the fallible
operations can be checked by `decide`. -/
instance instDecEqExcept [DecidableEq ε] [DecidableEq α] : DecidableEq (Except ε α) := fun a b =>
  match a, b with
  | .error x, .error y =>
    match decEq x y with
    | .isTrue h => .isTrue (by rw [h])
    | .isFalse h => .isFalse (fun hh => h (Except.error.inj hh))
  | .ok x, .ok y =>
    match decEq x y with
    | .isTrue h => .isTrue (by rw [h])
    | .isFalse h => .isFalse (fun hh => h (Except.ok.inj hh))
  | .error _, .ok _ => .isFalse (fun hh => Except.noConfusion hh)
  | .ok _, .error _ => .isFalse (fun hh => Except.noConfusion hh)

/-- Python truthiness of one cell, as `numpy.astype(bool)` applies it to an
object column: any non-empty string (including `"False"`) is truthy, a number
is truthy iff non-zero, and a missing value makes the conversion raise. -/
def cellToBool : Cell → Except Unit Bool
  | .b x => .ok x
  | .s x => .ok (decide (x ≠ ""))
  | .n x => .ok (decide (x.num ≠ 0))
  | .na => .error ()

/-- pandas `Series.astype(bool)`: cell-wise truthiness coercion to a
bool-dtype column, raising if any cell cannot be coerced. -/
def Column.astypeBool (c : Column) : Except Unit Column :=
  (c.cells.mapM cellToBool).map (fun bs => ⟨Dtype.boolT, bs.map Cell.b⟩)

/-- The fixed, closed set of section identifiers of the Section Router. -/
inductive SectionName
  | intro
  | insights
  | quality
  | recommendations
deriving DecidableEq

/-- The `sections` dictionary of `extract_report_sections` (and equally the
`sample_insights` dictionary of `generate_sample_insights`): one accumulated
text per section identifier. -/
structure Sections where
  intro : String
  insights : String
  quality : String
  recommendations : String
deriving DecidableEq

/-- Python `sections[sec] += line + "\n"`. -/
def Sections.appendLine (s : Sections) (sec : SectionName) (line : String) : Sections :=
  match sec with
  | .intro => { s with intro := s.intro ++ (line ++ "\n") }
  | .insights => { s with insights := s.insights ++ (line ++ "\n") }
  | .quality => { s with quality := s.quality ++ (line ++ "\n") }
  | .recommendations => { s with recommendations := s.recommendations ++ (line ++ "\n") }

/-- The body of the `for line in lines` loop of `extract_report_sections`:
keyword-plus-heading-marker tests on the lower-cased line select (and switch
to) a bucket, otherwise the line goes to the currently active bucket; the
original (never the lower-cased) line is appended. -/
def routeStep : Sections × SectionName → String → Sections × SectionName :=
  fun acc line =>
    if substrOf "insight" (pyLower line) && substrOf "#" line then
      (acc.1.appendLine .insights line, .insights)
    else if substrOf "quality" (pyLower line) && substrOf "#" line then
      (acc.1.appendLine .quality line, .quality)
    else if substrOf "recommend" (pyLower line) && substrOf "#" line then
      (acc.1.appendLine .recommendations line, .recommendations)
    else
      (acc.1.appendLine acc.2 line, acc.2)

/-- Embedding of `extract_report_sections` (report_generator.py, lines 179–216): split the
raw report on newlines and route every line into one of four buckets, starting
in `intro`. -/
def extract_report_sections (report_text : String) : Sections :=
  let lines := pySplit '\n' report_text
  (lines.foldl routeStep (⟨"", "", "", ""⟩, .intro)).1

/-- The bucket a line is routed to, given the currently active bucket — the
branch structure of `routeStep`, isolated for reasoning. -/
def classifyLine (cur : SectionName) (line : String) : SectionName :=
  if substrOf "insight" (pyLower line) && substrOf "#" line then .insights
  else if substrOf "quality" (pyLower line) && substrOf "#" line then .quality
  else if substrOf "recommend" (pyLower line) && substrOf "#" line then .recommendations
  else cur

/-- The router state with each bucket kept as its list of routed lines rather
than as accumulated text (specification-level companion of `Sections`). -/
structure SectionLines where
  intro : List String
  insights : List String
  quality : List String
  recommendations : List String
deriving DecidableEq

/-- Append one line to one bucket of a `SectionLines`. -/
def SectionLines.push (s : SectionLines) (sec : SectionName) (line : String) : SectionLines :=
  match sec with
  | .intro => { s with intro := s.intro ++ [line] }
  | .insights => { s with insights := s.insights ++ [line] }
  | .quality => { s with quality := s.quality ++ [line] }
  | .recommendations => { s with recommendations := s.recommendations ++ [line] }

/-- Line-list version of `routeStep`. -/
def routeStepL : SectionLines × SectionName → String → SectionLines × SectionName :=
  fun acc line => (acc.1.push (classifyLine acc.2 line) line, classifyLine acc.2 line)

/-- Line-list version of the router loop. -/
def routeLines (lines : List String) : SectionLines :=
  (lines.foldl routeStepL (⟨[], [], [], []⟩, .intro)).1

/-- Each stored line followed by exactly one newline, concatenated. -/
def joinNL : List String → String
  | [] => ""
  | l :: ls => (l ++ "\n") ++ joinNL ls

/-- Text form of a line-list router state. -/
def SectionLines.render (s : SectionLines) : Sections :=
  ⟨joinNL s.intro, joinNL s.insights, joinNL s.quality, joinNL s.recommendations⟩

/-- Python `str(cell)`, as it appears inside f-strings (numeric cells are
rendered with one decimal place, the form Python gives integral floats). -/
def cellStr : Cell → String
  | .b true => "True"
  | .b false => "False"
  | .s x => x
  | .n x => fmtFixed 1 x
  | .na => "nan"

/-- A value of the metrics dictionary built by `extract_key_metrics`: a
formatted string, a category-to-string map, or a list of category values. -/
inductive MetricValue
  | vstr (s : String)
  | vmap (m : List (Cell × String))
  | vlist (l : List Cell)
deriving DecidableEq

/-- The `Plan` block of `extract_key_metrics` (lines 136–138): percentage share
per plan, one decimal place. -/
def planMetrics (df : DataFrame) : List (String × MetricValue) :=
  match df.getCol? "Plan" with
  | none => []
  | some c =>
    let plan_distribution := c.value_counts_normalize.map (fun p => (p.1, Frac.mul p.2 ⟨100, 1⟩))
    [("plan_distribution", .vmap (plan_distribution.map (fun p => (p.1, fmtFixed 1 p.2 ++ "%"))))]

/-- The `MonthlySpend` block of `extract_key_metrics` (lines 141–144). -/
def spendMetrics (df : DataFrame) : List (String × MetricValue) :=
  match df.getCol? "MonthlySpend" with
  | none => []
  | some c =>
    [("average_spend", .vstr ("$" ++ fmtFixed 2 c.mean)),
     ("median_spend", .vstr ("$" ++ fmtFixed 2 c.median)),
     ("max_spend", .vstr ("$" ++ fmtFixed 2 c.maxVal))]

/-- The `Churn` block of `extract_key_metrics` (lines 147–160): boolean dtype
uses the mean directly; otherwise `astype(bool)` is tried (writing the result
into the frame of the caller as `Churn_bool` — an in-place mutation), and only if
that coercion raises does the `value_counts(...).get(True, 0)` fallback run.
Returns the metrics entries and the (possibly mutated) frame. -/
def churnMetrics (df : DataFrame) : List (String × MetricValue) × DataFrame :=
  match df.getCol? "Churn" with
  | none => ([], df)
  | some c =>
    if c.dtype = Dtype.boolT then
      ([("churn_rate", .vstr (fmtFixed 1 (Frac.mul c.mean ⟨100, 1⟩) ++ "%"))], df)
    else
      match c.astypeBool with
      | .ok cb =>
        ([("churn_rate", .vstr (fmtFixed 1 (Frac.mul cb.mean ⟨100, 1⟩) ++ "%"))],
         df.setCol "Churn_bool" cb)
      | .error _ =>
        ([("churn_rate", .vstr (fmtFixed 1 (Frac.mul c.vcNormGetTrue ⟨100, 1⟩) ++ "%"))], df)

/-- The `Tenure` block of `extract_key_metrics` (lines 163–165). -/
def tenureMetrics (df : DataFrame) : List (String × MetricValue) :=
  match df.getCol? "Tenure" with
  | none => []
  | some c =>
    [("average_tenure", .vstr (fmtFixed 1 c.mean)),
     ("median_tenure", .vstr (fmtFixed 1 c.median))]

/-- The `Industry` block of `extract_key_metrics` (lines 168–170): top five
industries by count. -/
def industryMetrics (df : DataFrame) : List (String × MetricValue) :=
  match df.getCol? "Industry" with
  | none => []
  | some c => [("top_industries", .vlist ((c.value_counts.take 5).map (fun p => p.1)))]

/-- The `Country` block of `extract_key_metrics` (lines 173–175). -/
def countryMetrics (df : DataFrame) : List (String × MetricValue) :=
  match df.getCol? "Country" with
  | none => []
  | some c => [("top_countries", .vlist ((c.value_counts.take 5).map (fun p => p.1)))]

/-- Embedding of `extract_key_metrics` (report_generator.py, lines 123–177): the per-column
blocks in source order.  The dictionary insertion order is the block order; the
frame returned is the frame of the caller after the possible
in-place `Churn_bool` assignment of the `Churn` block, which the blocks after `Churn` then see. -/
def extract_key_metrics (df : DataFrame) : List (String × MetricValue) × DataFrame :=
  let metrics := planMetrics df ++ spendMetrics df
  let churned := churnMetrics df
  let df1 := churned.2
  (metrics ++ churned.1 ++ tenureMetrics df1 ++ industryMetrics df1 ++ countryMetrics df1, df1)

/-- The initial `sample_insights` dictionary of `generate_sample_insights`
(report_generator.py, lines 48–53). -/
def sampleInsightsInit : Sections :=
  ⟨"This report analyzes customer data to identify key patterns and trends.",
   "",
   "The dataset was analyzed for quality issues. No major issues were found.",
   ""⟩

/-- The `Plan` block of `generate_sample_insights` (lines 56–63).
`plan_counts.index[0]` raises `IndexError` when the column has no countable
value, and `plan_counts[top_plan] / len(df)` raises `ZeroDivisionError` on a
zero-row frame; both are modelled as `.error`. -/
def planInsights (df : DataFrame) (ins : Sections) : Except Unit Sections :=
  match df.getCol? "Plan" with
  | none => .ok ins
  | some c =>
    match c.value_counts with
    | [] => .error ()
    | top :: _ =>
      if df.len = 0 then .error ()
      else
        let top_plan := top.1
        let plan_percentage := Frac.mul ⟨(top.2 : Int), df.len⟩ ⟨100, 1⟩
        .ok { ins with
          insights := ins.insights
            ++ ("The " ++ cellStr top_plan
                ++ " plan is the most popular subscription option, accounting for "
                ++ fmtFixed 1 plan_percentage ++ "% of customers. ")
            ++ "This suggests strong product-market fit for this tier. ",
          recommendations := ins.recommendations
            ++ ("- Consider optimizing the " ++ cellStr top_plan
                ++ " plan features based on customer usage patterns.\n") }

/-- The `MonthlySpend` block of `generate_sample_insights` (lines 66–69). -/
def spendInsights (df : DataFrame) (ins : Sections) : Sections :=
  match df.getCol? "MonthlySpend" with
  | none => ins
  | some c =>
    { ins with
      insights := ins.insights
        ++ ("The average monthly spend is $" ++ fmtFixed 2 c.mean
            ++ ", which indicates a solid revenue stream. "),
      recommendations := ins.recommendations
        ++ "- Implement tiered pricing strategies to increase average revenue per user.\n" }

/-- The two churn sentences appended once a churn rate has been computed
(lines 85–86). -/
def addChurnText (ins : Sections) (churn_rate : Frac) : Sections :=
  { ins with
    insights := ins.insights
      ++ ("The current churn rate is " ++ fmtFixed 1 churn_rate
          ++ "%, which impacts customer lifetime value. "),
    recommendations := ins.recommendations
      ++ "- Develop targeted retention programs for at-risk customer segments.\n" }

/-- The `Churn` block of `generate_sample_insights` (lines 72–88): the same
dtype-check / `astype(bool)` / `value_counts` fallback chain as in
`extract_key_metrics`, including the in-place `Churn_bool` assignment.  The
whole block sits in a `try/except: pass`; every branch of the model is total,
so the outer handler never fires. -/
def churnInsights (df : DataFrame) (ins : Sections) : Sections × DataFrame :=
  match df.getCol? "Churn" with
  | none => (ins, df)
  | some c =>
    if c.dtype = Dtype.boolT then
      (addChurnText ins (Frac.mul c.mean ⟨100, 1⟩), df)
    else
      match c.astypeBool with
      | .ok cb => (addChurnText ins (Frac.mul cb.mean ⟨100, 1⟩), df.setCol "Churn_bool" cb)
      | .error _ => (addChurnText ins (Frac.mul c.vcNormGetTrue ⟨100, 1⟩), df)

/-- The `Tenure` block of `generate_sample_insights` (lines 91–94). -/
def tenureInsights (df : DataFrame) (ins : Sections) : Sections :=
  match df.getCol? "Tenure" with
  | none => ins
  | some c =>
    { ins with
      insights := ins.insights
        ++ ("Customers stay subscribed for an average of " ++ fmtFixed 1 c.mean ++ " months. "),
      recommendations := ins.recommendations
        ++ "- Create loyalty rewards for customers who reach tenure milestones.\n" }

/-- The `Industry` block of `generate_sample_insights` (lines 97–101). -/
def industryInsights (df : DataFrame) (ins : Sections) : Sections :=
  match df.getCol? "Industry" with
  | none => ins
  | some c =>
    let top_industries := (c.value_counts.take 3).map (fun p => p.1)
    let industries_text := joinSep ", " (top_industries.map cellStr)
    { ins with
      insights := ins.insights
        ++ ("The top industries in our customer base are " ++ industries_text ++ ". "),
      recommendations := ins.recommendations
        ++ "- Develop industry-specific features for the top customer segments.\n" }

/-- The generic-insights boilerplate paragraph (lines 105–109), exactly as the
Python triple-quoted literal renders it. -/
def insightsBoiler : String :=
  "\n        The customer data reveals several actionable patterns that can inform business strategy.\n        There\x27s a correlation between subscription tiers and customer retention that should be leveraged.\n        Customer acquisition channels significantly impact lifetime value and should be optimized accordingly.\n        "

/-- The generic-recommendations boilerplate paragraph (lines 113–119). -/
def recommendationsBoiler : String :=
  "\n        - Implement a customer feedback loop to continually improve product features\n        - Develop a comprehensive customer onboarding program to increase initial engagement\n        - Create targeted marketing campaigns based on customer segmentation\n        - Optimize pricing strategy to maximize both conversion and revenue\n        - Establish a customer success program to proactively address potential churn factors\n        "

/-- Lines 104–109: append the generic insights paragraph when fewer than 50
characters of metric-derived insights were accumulated. -/
def addInsBoiler (ins : Sections) : Sections :=
  if ins.insights.length < 50 then { ins with insights := ins.insights ++ insightsBoiler }
  else ins

/-- Lines 112–119: append the generic recommendations paragraph when fewer
than 50 characters of metric-derived recommendations were accumulated. -/
def addRecBoiler (ins : Sections) : Sections :=
  if ins.recommendations.length < 50 then
    { ins with recommendations := ins.recommendations ++ recommendationsBoiler }
  else ins

/-- Lines 104–119: both generic fallbacks, in source order. -/
def genericFallbacks (ins : Sections) : Sections :=
  addRecBoiler (addInsBoiler ins)

/-- Embedding of `generate_sample_insights` (report_generator.py, lines 37–121): the
per-column blocks in source order, threading the frame through the `Churn`
possible in-place mutation of the `Churn` block, then the generic fallbacks. -/
def generate_sample_insights (df : DataFrame) : Except Unit (Sections × DataFrame) :=
  match planInsights df sampleInsightsInit with
  | .error e => .error e
  | .ok ins =>
    let ins := spendInsights df ins
    let churned := churnInsights df ins
    let ins := tenureInsights churned.2 churned.1
    let ins := industryInsights churned.2 ins
    .ok (genericFallbacks ins, churned.2)

/-- A crewai `Agent` as the repository constructs it: role, goal, backstory
(the delegation flag and LLM handle play no part in the claims). -/
structure AgentSpec where
  role : String
  goal : String
  backstory : String
deriving DecidableEq

/-- Embedding of `create_insights_agent` (modules/agents/insights_agent.py). -/
def create_insights_agent : AgentSpec :=
  ⟨"Data Insights Analyst",
   "Discover key patterns and insights from the dataset.",
   "An experienced data analyst specializing in uncovering trends and business patterns."⟩

/-- Embedding of `create_quality_agent` (modules/agents/quality_agent.py). -/
def create_quality_agent : AgentSpec :=
  ⟨"Data Quality Auditor",
   "Identify missing values, inconsistencies, and potential data quality issues.",
   "Expert at ensuring data integrity and validation for business reliability."⟩

/-- Embedding of `create_recommendations_agent` (modules/agents/recommendations_agent.py). -/
def create_recommendations_agent : AgentSpec :=
  ⟨"Data Strategist",
   "Propose actionable improvements and next steps based on the data insights.",
   "A strategist who translates data into meaningful business actions and improvements."⟩

/-- A crewai `Task` as the repository constructs it. -/
structure TaskSpec where
  description : String
  expected_output : String
  agent : AgentSpec
deriving DecidableEq

/-- Rendering of one cell in CSV output (missing values print as empty). -/
def cellCsv : Cell → String
  | .na => ""
  | c => cellStr c

/-- pandas `DataFrame.to_csv(index=False)`: header row of column names, then
one comma-separated line per row (field quoting is not modelled; no claim
inspects the serialized text). -/
def DataFrame.to_csv (df : DataFrame) : String :=
  let header := joinSep "," (df.cols.map (fun c => c.1)) ++ "\n"
  let rows := (List.range df.len).map
    (fun i => joinSep "," (df.cols.map (fun c => cellCsv (c.2.cells.getD i Cell.na))) ++ "\n")
  header ++ joinNL (rows.map (fun r => r.dropRight 1))

/-- A linear congruential pseudo-random word used to key the seeded draw. -/
def lcg (x : Nat) : Nat := (1103515245 * x + 12345) % 2147483648

/-- Insert into a list kept ascending by `lcg`-key (seeded shuffle step). -/
def insertByKey (seed : Nat) (i : Nat) : List Nat → List Nat
  | [] => [i]
  | j :: js =>
    if lcg (seed + 97 * i) ≤ lcg (seed + 97 * j) then i :: j :: js
    else j :: insertByKey seed i js

/-- Modelled from the spec: the row indices `pandas.DataFrame.sample(k,
random_state=seed)` draws — pandas itself is outside this repository, and §4.1
of the spec requires only a fixed-seed deterministic draw of `k` distinct rows.
The draw is modelled as sorting `0..n-1` by a seeded pseudo-random key
(a permutation of the indices) and keeping the first `k`. -/
def sampleIndices (seed n k : Nat) : List Nat :=
  ((List.range n).foldr (insertByKey seed) []).take k

/-- Row selection at the given indices, column by column. -/
def DataFrame.selectRows (df : DataFrame) (idxs : List Nat) : DataFrame :=
  ⟨df.cols.map (fun c => (c.1, ⟨c.2.dtype, idxs.filterMap (fun i => c.2.cells.get? i)⟩))⟩

/-- Modelled from the spec: `df.sample(k, random_state=seed)` — the rows of
`df` at the `sampleIndices` draw. -/
def DataFrame.sample (df : DataFrame) (k seed : Nat) : DataFrame :=
  df.selectRows (sampleIndices seed df.len k)

/-- The sample `generate_report` builds (crew_agents.py, lines 22–25): the full
frame when it has at most 50 rows, otherwise `df.sample(50, random_state=42)`. -/
def reportSample (df : DataFrame) : DataFrame :=
  if df.len > 50 then df.sample 50 42 else df

/-- Embedding of `insights_task` (crew_agents.py, lines 36–40). -/
def insights_task (table_string : String) : TaskSpec :=
  { description := "Analyze the following customer dataset and find key patterns, trends, and interesting insights: " ++ table_string,
    expected_output := "A list of key patterns, trends, and interesting insights discovered in the dataset.",
    agent := create_insights_agent }

/-- Embedding of `quality_task` (crew_agents.py, lines 42–46). -/
def quality_task (table_string : String) : TaskSpec :=
  { description := "Audit the following customer dataset and identify any data quality issues like missing values, duplicates, or inconsistencies: " ++ table_string,
    expected_output := "A list of detected data quality issues, missing fields, duplicates, or inconsistencies found in the dataset.",
    agent := create_quality_agent }

/-- Embedding of `recommendations_task` (crew_agents.py, lines 48–52). -/
def recommendations_task (table_string : String) : TaskSpec :=
  { description := "Based on the customer dataset, suggest improvements, optimizations, and next actionable steps for better business decisions: " ++ table_string,
    expected_output := "A list of suggested business improvements and next actionable steps based on the dataset analysis.",
    agent := create_recommendations_agent }

/-- Concatenation of a list of result texts. -/
def joinStrs : List String → String
  | [] => ""
  | x :: xs => x ++ joinStrs xs

/-- Modelled from the spec: `Crew(...).kickoff().raw` — the crewai library is
external to this repository.  Per §4.2/§4.4 of the spec, each task is executed
once by the external generation capability `gen`; tasks may *complete* in any
order (`completionOrder`, a permutation of the task positions), but the final
RawDocument aggregates the AnalysisResults in fixed task-list order, so
ordering is a property of assembly, not of execution. -/
def crewKickoff (tasks : List TaskSpec) (gen : TaskSpec → String)
    (completionOrder : List Nat) : String :=
  joinStrs ((List.range tasks.length).filterMap
    (fun i => (completionOrder.filterMap
      (fun j => (tasks.get? j).map (fun t => (j, gen t)))).lookup i))

/-- Embedding of `generate_report` (crew_agents.py, lines 8–63): short-circuit on an empty
frame, bound the sample, serialize it, build the three role tasks, and run the
crew.  `gen` is the opaque external generation capability of spec §6 and
`completionOrder` the (unconstrained) completion order of the three tasks. -/
def generate_report (df : DataFrame) (gen : TaskSpec → String)
    (completionOrder : List Nat) : String :=
  if df.len = 0 then "No data to analyze."
  else
    let df_sample := reportSample df
    let table_string := df_sample.to_csv
    let insights := insights_task table_string
    let quality := quality_task table_string
    let recommendations := recommendations_task table_string
    crewKickoff [insights, quality, recommendations] gen completionOrder

theorem strData_append (a b : String) : (a ++ b).data = a.data ++ b.data := by
  cases a
  cases b
  rfl

theorem strExt {a b : String} (h : a.data = b.data) : a = b := by
  cases a
  cases b
  exact congrArg String.mk h

theorem strAppend_assoc (a b c : String) : (a ++ b) ++ c = a ++ (b ++ c) := by
  apply strExt
  simp only [strData_append, List.append_assoc]

theorem strAppend_empty (a : String) : a ++ "" = a := by
  apply strExt
  rw [strData_append]
  exact List.append_nil _

theorem strEmpty_append (a : String) : "" ++ a = a := by
  apply strExt
  rw [strData_append]
  rfl

theorem strAppend_ne_empty_right (a b : String) (h : b ≠ "") : a ++ b ≠ "" := by
  intro hc
  apply h
  apply strExt
  have hd := congrArg String.data hc
  rw [strData_append] at hd
  exact (List.append_eq_nil.mp hd).2

theorem strLength_ge_ne_empty (a : String) (h : 50 ≤ a.length) : a ≠ "" := by
  intro hc
  rw [hc] at h
  exact absurd h (by decide)

theorem joinNL_append_single (ls : List String) (l : String) :
    joinNL (ls ++ [l]) = joinNL ls ++ (l ++ "\n") := by
  induction ls with
  | nil =>
    show (l ++ "\n") ++ joinNL [] = "" ++ (l ++ "\n")
    rw [strEmpty_append]
    exact strAppend_empty _
  | cons x xs ih =>
    show (x ++ "\n") ++ joinNL (xs ++ [l]) = ((x ++ "\n") ++ joinNL xs) ++ (l ++ "\n")
    rw [ih]
    simp [strAppend_assoc]

theorem joinNL_ends_newline (ls : List String) :
    joinNL ls = "" ∨ ∃ t, joinNL ls = t ++ "\n" := by
  induction ls with
  | nil => exact Or.inl rfl
  | cons x xs ih =>
    rcases ih with h | ⟨t, ht⟩
    · refine Or.inr ⟨x, ?_⟩
      show (x ++ "\n") ++ joinNL xs = x ++ "\n"
      rw [h]
      exact strAppend_empty _
    · refine Or.inr ⟨(x ++ "\n") ++ t, ?_⟩
      show (x ++ "\n") ++ joinNL xs = ((x ++ "\n") ++ t) ++ "\n"
      rw [ht]
      simp [strAppend_assoc]

theorem render_push (sl : SectionLines) (sec : SectionName) (line : String) :
    (sl.push sec line).render = sl.render.appendLine sec line := by
  cases sec <;>
    simp only [SectionLines.push, SectionLines.render, Sections.appendLine, joinNL_append_single]

theorem routeStep_classify (acc : Sections × SectionName) (line : String) :
    routeStep acc line
      = (acc.1.appendLine (classifyLine acc.2 line) line, classifyLine acc.2 line) := by
  by_cases h1 : (substrOf "insight" (pyLower line) && substrOf "#" line) = true
  · simp [routeStep, classifyLine, h1]
  · by_cases h2 : (substrOf "quality" (pyLower line) && substrOf "#" line) = true
    · simp [routeStep, classifyLine, h1, h2]
    · by_cases h3 : (substrOf "recommend" (pyLower line) && substrOf "#" line) = true
      · simp [routeStep, classifyLine, h1, h2, h3]
      · simp [routeStep, classifyLine, h1, h2, h3]

theorem foldRoute_render (lines : List String) :
    ∀ (sl : SectionLines) (cur : SectionName),
      (lines.foldl routeStep (sl.render, cur)).1
        = ((lines.foldl routeStepL (sl, cur)).1).render := by
  induction lines with
  | nil => intro sl cur; rfl
  | cons l ls ih =>
    intro sl cur
    rw [List.foldl_cons, List.foldl_cons, routeStep_classify]
    show (ls.foldl routeStep (Sections.appendLine sl.render (classifyLine cur l) l, classifyLine cur l)).1 = _
    rw [← render_push]
    exact ih (sl.push (classifyLine cur l) l) (classifyLine cur l)

theorem extract_eq_render (s : String) :
    extract_report_sections s = (routeLines (pySplit '\n' s)).render := by
  unfold extract_report_sections routeLines
  exact foldRoute_render (pySplit '\n' s) ⟨[], [], [], []⟩ .intro

/-- All routed lines of a line-list router state, bucket by bucket. -/
def SectionLines.allLines (sl : SectionLines) : List String :=
  sl.intro ++ (sl.insights ++ (sl.quality ++ sl.recommendations))

theorem push_allLines_perm (sl : SectionLines) (sec : SectionName) (e : String) :
    ((sl.push sec e).allLines).Perm (sl.allLines ++ [e]) := by
  refine List.Perm.trans ?_ (List.perm_append_singleton e sl.allLines).symm
  cases sec
  case intro =>
    show ((sl.intro ++ [e]) ++ (sl.insights ++ (sl.quality ++ sl.recommendations))).Perm
      (e :: sl.allLines)
    have h : (sl.intro ++ [e]) ++ (sl.insights ++ (sl.quality ++ sl.recommendations))
        = sl.intro ++ e :: (sl.insights ++ (sl.quality ++ sl.recommendations)) := by
      simp [List.append_assoc]
    rw [h]
    exact List.perm_middle
  case insights =>
    show (sl.intro ++ ((sl.insights ++ [e]) ++ (sl.quality ++ sl.recommendations))).Perm
      (e :: sl.allLines)
    have h : sl.intro ++ ((sl.insights ++ [e]) ++ (sl.quality ++ sl.recommendations))
        = (sl.intro ++ sl.insights) ++ e :: (sl.quality ++ sl.recommendations) := by
      simp [List.append_assoc]
    have h2 : (sl.intro ++ sl.insights) ++ (sl.quality ++ sl.recommendations) = sl.allLines := by
      simp [SectionLines.allLines, List.append_assoc]
    rw [h, ← h2]
    exact List.perm_middle
  case quality =>
    show (sl.intro ++ (sl.insights ++ ((sl.quality ++ [e]) ++ sl.recommendations))).Perm
      (e :: sl.allLines)
    have h : sl.intro ++ (sl.insights ++ ((sl.quality ++ [e]) ++ sl.recommendations))
        = ((sl.intro ++ sl.insights) ++ sl.quality) ++ e :: sl.recommendations := by
      simp [List.append_assoc]
    have h2 : ((sl.intro ++ sl.insights) ++ sl.quality) ++ sl.recommendations = sl.allLines := by
      simp [SectionLines.allLines, List.append_assoc]
    rw [h, ← h2]
    exact List.perm_middle
  case recommendations =>
    show (sl.intro ++ (sl.insights ++ (sl.quality ++ (sl.recommendations ++ [e])))).Perm
      (e :: sl.allLines)
    have h : sl.intro ++ (sl.insights ++ (sl.quality ++ (sl.recommendations ++ [e])))
        = sl.allLines ++ [e] := by
      simp [SectionLines.allLines, List.append_assoc]
    rw [h]
    exact List.perm_append_singleton e sl.allLines

theorem foldRouteL_perm (lines : List String) :
    ∀ (sl : SectionLines) (cur : SectionName),
      (((lines.foldl routeStepL (sl, cur)).1).allLines).Perm (sl.allLines ++ lines) := by
  induction lines with
  | nil =>
    intro sl cur
    rw [List.append_nil]
    exact List.Perm.refl _
  | cons l ls ih =>
    intro sl cur
    rw [List.foldl_cons]
    refine List.Perm.trans (ih (sl.push (classifyLine cur l) l) (classifyLine cur l)) ?_
    refine List.Perm.trans (List.Perm.append_right ls (push_allLines_perm sl (classifyLine cur l) l)) ?_
    rw [List.append_assoc]
    exact List.Perm.refl _

theorem routeLines_perm (lines : List String) :
    ((routeLines lines).allLines).Perm lines := by
  unfold routeLines
  have h := foldRouteL_perm lines ⟨[], [], [], []⟩ .intro
  simpa [SectionLines.allLines] using h

theorem find?_overwrite (l : List (String × Column)) (n' : String) (col : Column)
    (name : String) (h : name ≠ n') :
    (l.map (fun c => if c.1 = n' then (n', col) else c)).find? (fun c => c.1 = name)
      = l.find? (fun c => c.1 = name) := by
  induction l with
  | nil => rfl
  | cons a as ih =>
    by_cases ha : a.1 = n'
    · have h1 : (if a.1 = n' then (n', col) else a) = (n', col) := if_pos ha
      rw [List.map_cons, h1, List.find?_cons_of_neg _ (by simpa using (Ne.symm h)),
        List.find?_cons_of_neg _ (by simpa [ha] using (Ne.symm h))]
      exact ih
    · have h1 : (if a.1 = n' then (n', col) else a) = a := if_neg ha
      rw [List.map_cons, h1]
      by_cases hn : a.1 = name
      · rw [List.find?_cons_of_pos _ (by simpa using hn), List.find?_cons_of_pos _ (by simpa using hn)]
      · rw [List.find?_cons_of_neg _ (by simpa using hn), List.find?_cons_of_neg _ (by simpa using hn)]
        exact ih

theorem getCol?_setCol_ne (df : DataFrame) (n' : String) (col : Column)
    (name : String) (h : name ≠ n') :
    (df.setCol n' col).getCol? name = df.getCol? name := by
  unfold DataFrame.setCol
  split
  · unfold DataFrame.getCol?
    rw [find?_overwrite df.cols n' col name h]
  · unfold DataFrame.getCol?
    rw [List.find?_append]
    have h1 : ([(n', col)].find? (fun c => c.1 = name)) = none := by
      rw [List.find?_cons_of_neg _ (by simpa using (Ne.symm h))]
      rfl
    rw [h1]
    cases df.cols.find? (fun c => (c.1 = name : Bool)) <;> rfl

theorem churnMetrics_frame (df : DataFrame) :
    (churnMetrics df).2 = df ∨ ∃ cb, (churnMetrics df).2 = df.setCol "Churn_bool" cb := by
  unfold churnMetrics
  cases df.getCol? "Churn" with
  | none => exact Or.inl rfl
  | some c =>
    by_cases hd : c.dtype = Dtype.boolT
    · left
      simp [hd]
    · simp only [if_neg hd]
      cases c.astypeBool with
      | ok cb => exact Or.inr ⟨cb, rfl⟩
      | error e => exact Or.inl rfl

theorem ekm_frame (df : DataFrame) :
    (extract_key_metrics df).2 = df
      ∨ ∃ cb, (extract_key_metrics df).2 = df.setCol "Churn_bool" cb := by
  unfold extract_key_metrics
  exact churnMetrics_frame df

theorem churnInsights_frame (df : DataFrame) (ins : Sections) :
    (churnInsights df ins).2 = df
      ∨ ∃ cb, (churnInsights df ins).2 = df.setCol "Churn_bool" cb := by
  unfold churnInsights
  cases df.getCol? "Churn" with
  | none => exact Or.inl rfl
  | some c =>
    by_cases hd : c.dtype = Dtype.boolT
    · left
      simp [hd]
    · simp only [if_neg hd]
      cases c.astypeBool with
      | ok cb => exact Or.inr ⟨cb, rfl⟩
      | error e => exact Or.inl rfl

theorem gsi_frame (df : DataFrame) (r : Sections × DataFrame)
    (h : generate_sample_insights df = .ok r) :
    r.2 = df ∨ ∃ cb, r.2 = df.setCol "Churn_bool" cb := by
  unfold generate_sample_insights at h
  cases hp : planInsights df sampleInsightsInit with
  | error e => rw [hp] at h; exact absurd h (by simp)
  | ok ins =>
    rw [hp] at h
    have h2 : r.2 = (churnInsights df (spendInsights df ins)).2 := by
      have := Except.ok.inj h
      rw [← this]
    rw [h2]
    exact churnInsights_frame df (spendInsights df ins)

theorem addInsBoiler_ne (ins : Sections) : (addInsBoiler ins).insights ≠ "" := by
  unfold addInsBoiler
  split
  · exact strAppend_ne_empty_right _ _ (by decide)
  next h => exact strLength_ge_ne_empty _ (Nat.le_of_not_lt h)

theorem addRecBoiler_insights (ins : Sections) : (addRecBoiler ins).insights = ins.insights := by
  unfold addRecBoiler
  split <;> rfl

theorem addRecBoiler_ne (ins : Sections) : (addRecBoiler ins).recommendations ≠ "" := by
  unfold addRecBoiler
  split
  · exact strAppend_ne_empty_right _ _ (by decide)
  next h => exact strLength_ge_ne_empty _ (Nat.le_of_not_lt h)

theorem genericFallbacks_ne (ins : Sections) :
    (genericFallbacks ins).insights ≠ "" ∧ (genericFallbacks ins).recommendations ≠ "" := by
  unfold genericFallbacks
  refine ⟨?_, addRecBoiler_ne _⟩
  rw [addRecBoiler_insights]
  exact addInsBoiler_ne ins

theorem gsi_sections (df : DataFrame) (r : Sections × DataFrame)
    (h : generate_sample_insights df = .ok r) : ∃ ins, r.1 = genericFallbacks ins := by
  unfold generate_sample_insights at h
  cases hp : planInsights df sampleInsightsInit with
  | error e => rw [hp] at h; exact absurd h (by simp)
  | ok ins =>
    rw [hp] at h
    have h2 := Except.ok.inj h
    exact ⟨_, by rw [← h2]⟩

theorem planMetrics_keys (df : DataFrame) (k : String)
    (h : k ∈ (planMetrics df).map Prod.fst) :
    k = "plan_distribution" ∧ df.hasCol "Plan" = true := by
  unfold planMetrics at h
  cases hc : df.getCol? "Plan" with
  | none => rw [hc] at h; exact absurd h (by simp)
  | some c =>
    rw [hc] at h
    simp only [List.map_cons, List.map_nil, List.mem_singleton] at h
    exact ⟨h, by simp [DataFrame.hasCol, hc]⟩

theorem spendMetrics_keys (df : DataFrame) (k : String)
    (h : k ∈ (spendMetrics df).map Prod.fst) :
    (k = "average_spend" ∨ k = "median_spend" ∨ k = "max_spend")
      ∧ df.hasCol "MonthlySpend" = true := by
  unfold spendMetrics at h
  cases hc : df.getCol? "MonthlySpend" with
  | none => rw [hc] at h; exact absurd h (by simp)
  | some c =>
    rw [hc] at h
    simp only [List.map_cons, List.map_nil, List.mem_cons, List.mem_singleton,
      List.not_mem_nil, or_false] at h
    exact ⟨h, by simp [DataFrame.hasCol, hc]⟩

theorem churnMetrics_keys (df : DataFrame) (k : String)
    (h : k ∈ ((churnMetrics df).1).map Prod.fst) :
    k = "churn_rate" ∧ df.hasCol "Churn" = true := by
  unfold churnMetrics at h
  cases hc : df.getCol? "Churn" with
  | none => rw [hc] at h; exact absurd h (by simp)
  | some c =>
    rw [hc] at h
    have hh : df.hasCol "Churn" = true := by simp [DataFrame.hasCol, hc]
    by_cases hd : c.dtype = Dtype.boolT
    · simp only [hd, if_true, List.map_cons, List.map_nil, List.mem_singleton] at h
      exact ⟨h, hh⟩
    · simp only [if_neg hd] at h
      cases ha : c.astypeBool with
      | ok cb =>
        rw [ha] at h
        simp only [List.map_cons, List.map_nil, List.mem_singleton] at h
        exact ⟨h, hh⟩
      | error e =>
        rw [ha] at h
        simp only [List.map_cons, List.map_nil, List.mem_singleton] at h
        exact ⟨h, hh⟩

theorem tenureMetrics_keys (df : DataFrame) (k : String)
    (h : k ∈ (tenureMetrics df).map Prod.fst) :
    (k = "average_tenure" ∨ k = "median_tenure") ∧ df.hasCol "Tenure" = true := by
  unfold tenureMetrics at h
  cases hc : df.getCol? "Tenure" with
  | none => rw [hc] at h; exact absurd h (by simp)
  | some c =>
    rw [hc] at h
    simp only [List.map_cons, List.map_nil, List.mem_cons, List.mem_singleton,
      List.not_mem_nil, or_false] at h
    exact ⟨h, by simp [DataFrame.hasCol, hc]⟩

theorem industryMetrics_keys (df : DataFrame) (k : String)
    (h : k ∈ (industryMetrics df).map Prod.fst) :
    k = "top_industries" ∧ df.hasCol "Industry" = true := by
  unfold industryMetrics at h
  cases hc : df.getCol? "Industry" with
  | none => rw [hc] at h; exact absurd h (by simp)
  | some c =>
    rw [hc] at h
    simp only [List.map_cons, List.map_nil, List.mem_singleton] at h
    exact ⟨h, by simp [DataFrame.hasCol, hc]⟩

theorem countryMetrics_keys (df : DataFrame) (k : String)
    (h : k ∈ (countryMetrics df).map Prod.fst) :
    k = "top_countries" ∧ df.hasCol "Country" = true := by
  unfold countryMetrics at h
  cases hc : df.getCol? "Country" with
  | none => rw [hc] at h; exact absurd h (by simp)
  | some c =>
    rw [hc] at h
    simp only [List.map_cons, List.map_nil, List.mem_singleton] at h
    exact ⟨h, by simp [DataFrame.hasCol, hc]⟩

/-- The key set of the metrics dictionary `extract_key_metrics` builds. -/
def metricKeys (df : DataFrame) : List String :=
  ((extract_key_metrics df).1).map Prod.fst

theorem ekm_hasCol_eq (df : DataFrame) (name : String) (h : name ≠ "Churn_bool") :
    ((extract_key_metrics df).2).getCol? name = df.getCol? name := by
  rcases ekm_frame df with h1 | ⟨cb, h1⟩
  · rw [h1]
  · rw [h1, getCol?_setCol_ne _ _ _ _ h]

theorem mem_metricKeys_cases (df : DataFrame) (k : String) (h : k ∈ metricKeys df) :
    k ∈ (planMetrics df).map Prod.fst
      ∨ k ∈ (spendMetrics df).map Prod.fst
      ∨ k ∈ ((churnMetrics df).1).map Prod.fst
      ∨ k ∈ (tenureMetrics (churnMetrics df).2).map Prod.fst
      ∨ k ∈ (industryMetrics (churnMetrics df).2).map Prod.fst
      ∨ k ∈ (countryMetrics (churnMetrics df).2).map Prod.fst := by
  unfold metricKeys extract_key_metrics at h
  simp only [List.map_append, List.mem_append] at h
  tauto

theorem insertByKey_perm (seed i : Nat) (l : List Nat) :
    (insertByKey seed i l).Perm (i :: l) := by
  induction l with
  | nil => exact List.Perm.refl _
  | cons j js ih =>
    rw [insertByKey]
    split
    · exact List.Perm.refl _
    · exact List.Perm.trans (List.Perm.cons j ih) (List.Perm.swap i j js)

theorem foldr_insertByKey_perm (seed : Nat) (l : List Nat) :
    (l.foldr (insertByKey seed) []).Perm l := by
  induction l with
  | nil => exact List.Perm.refl _
  | cons x xs ih =>
    exact List.Perm.trans (insertByKey_perm seed x _) (List.Perm.cons x ih)

theorem sampleIndices_nodup (seed n k : Nat) : (sampleIndices seed n k).Nodup := by
  unfold sampleIndices
  refine List.Nodup.sublist (List.take_sublist _ _) ?_
  exact ((foldr_insertByKey_perm seed (List.range n)).symm).nodup (List.nodup_range n)

theorem sampleIndices_mem (seed n k i : Nat) (h : i ∈ sampleIndices seed n k) : i < n := by
  have h2 : i ∈ (List.range n).foldr (insertByKey seed) [] :=
    (List.take_sublist _ _).subset h
  exact List.mem_range.mp ((foldr_insertByKey_perm seed (List.range n)).mem_iff.mp h2)

theorem sampleIndices_length (seed n k : Nat) (h : k ≤ n) :
    (sampleIndices seed n k).length = k := by
  unfold sampleIndices
  rw [List.length_take, (foldr_insertByKey_perm seed (List.range n)).length_eq,
    List.length_range]
  exact Nat.min_eq_left h

theorem filterMap_get?_length (l : List Cell) (idxs : List Nat)
    (h : ∀ i ∈ idxs, i < l.length) :
    (idxs.filterMap (fun i => l.get? i)).length = idxs.length := by
  induction idxs with
  | nil => rfl
  | cons i is ih =>
    have hi : i < l.length := h i (List.mem_cons_self i is)
    rw [List.filterMap_cons, List.get?_eq_get hi]
    show (l.get ⟨i, hi⟩ :: is.filterMap (fun i => l.get? i)).length = is.length + 1
    rw [List.length_cons, ih (fun j hj => h j (List.mem_cons_of_mem i hj))]

theorem selectRows_len (df : DataFrame) (idxs : List Nat) (hwf : df.wf)
    (h : ∀ i ∈ idxs, i < df.len) (hne : df.cols ≠ []) :
    (df.selectRows idxs).len = idxs.length := by
  unfold DataFrame.selectRows DataFrame.len
  cases hc : df.cols with
  | nil => exact absurd hc hne
  | cons c cs =>
    show (idxs.filterMap (fun i => c.2.cells.get? i)).length = idxs.length
    refine filterMap_get?_length _ _ ?_
    intro i hi
    have hlen := hwf c (by rw [hc]; exact List.mem_cons_self c cs)
    rw [hlen]
    exact h i hi

theorem len_pos_cols_ne (df : DataFrame) (h : 0 < df.len) : df.cols ≠ [] := by
  intro hc
  unfold DataFrame.len at h
  rw [hc] at h
  exact absurd h (by decide)

theorem lookup_taskResults (tasks : List TaskSpec) (gen : TaskSpec → String) (ord : List Nat)
    (i : Nat) (hmem : i ∈ ord) (hi : i < tasks.length) :
    (ord.filterMap (fun j => (tasks.get? j).map (fun t => (j, gen t)))).lookup i
      = (tasks.get? i).map gen := by
  induction ord with
  | nil => exact absurd hmem (by simp)
  | cons j js ih =>
    rw [List.filterMap_cons]
    cases hj : tasks.get? j with
    | some t =>
      show (((j, gen t)) :: js.filterMap (fun j => (tasks.get? j).map (fun t => (j, gen t)))).lookup i = _
      by_cases hij : i = j
      · subst hij
        rw [List.lookup_cons]
        simp only [beq_self_eq_true]
        rw [hj]
        rfl
      · have hmem2 : i ∈ js := by
          rcases List.mem_cons.mp hmem with h | h
          · exact absurd h hij
          · exact h
        rw [List.lookup_cons]
        have hbeq : (i == j) = false := by
          simp [hij]
        rw [hbeq]
        exact ih hmem2
    | none =>
      show (js.filterMap (fun j => (tasks.get? j).map (fun t => (j, gen t)))).lookup i = _
      have hjlen : ¬ j < tasks.length := by
        intro hlt
        rw [List.get?_eq_get hlt] at hj
        exact Option.noConfusion hj
      have hmem2 : i ∈ js := by
        rcases List.mem_cons.mp hmem with h | h
        · subst h; exact absurd hi hjlen
        · exact h
      exact ih hmem2

theorem crewKickoff_perm (t1 t2 t3 : TaskSpec) (gen : TaskSpec → String) (ord : List Nat)
    (hp : ord.Perm [0, 1, 2]) :
    crewKickoff [t1, t2, t3] gen ord = gen t1 ++ (gen t2 ++ gen t3) := by
  unfold crewKickoff
  have h0 : (0 : Nat) ∈ ord := hp.mem_iff.mpr (by decide)
  have h1 : (1 : Nat) ∈ ord := hp.mem_iff.mpr (by decide)
  have h2 : (2 : Nat) ∈ ord := hp.mem_iff.mpr (by decide)
  have e0 := lookup_taskResults [t1, t2, t3] gen ord 0 h0 (show (0 : Nat) < 3 by decide)
  have e1 := lookup_taskResults [t1, t2, t3] gen ord 1 h1 (show (1 : Nat) < 3 by decide)
  have e2 := lookup_taskResults [t1, t2, t3] gen ord 2 h2 (show (2 : Nat) < 3 by decide)
  rw [show List.range ([t1, t2, t3] : List TaskSpec).length = [0, 1, 2] from rfl]
  rw [List.filterMap_cons, List.filterMap_cons, List.filterMap_cons, List.filterMap_nil,
    e0, e1, e2]
  show gen t1 ++ (gen t2 ++ (gen t3 ++ "")) = gen t1 ++ (gen t2 ++ gen t3)
  rw [strAppend_empty]

/-- C1 (counterexample): on the document `"# quality\n# insight"`, whose
section headings appear out of the canonical bucket order, concatenating the
four bucket texts in the fixed order intro–insights–quality–recommendations
does not reproduce the original lines in original order. -/
theorem claim_C1_counterexample :
    (extract_report_sections "# quality\n# insight").intro
        ++ ((extract_report_sections "# quality\n# insight").insights
        ++ ((extract_report_sections "# quality\n# insight").quality
        ++ (extract_report_sections "# quality\n# insight").recommendations))
      ≠ joinNL (pySplit '\n' "# quality\n# insight") := by
  decide

/-- C1 (amended): `extract_report_sections` appends every input line, with a
newline terminator, to exactly one of the four buckets, so the four buckets
together hold exactly the lines of the original document — none dropped, none
duplicated (a permutation of the split lines) — though the fixed concatenation
order need not reproduce the original line order. -/
theorem claim_C1_partition (s : String) :
    ∃ L : SectionLines,
      extract_report_sections s = L.render ∧ (L.allLines).Perm (pySplit '\n' s) :=
  ⟨routeLines (pySplit '\n' s), extract_eq_render s, routeLines_perm (pySplit '\n' s)⟩

/-- C4: the step of the Section Router appends the original (never the lower-cased)
line to the bucket selected by the keyword-plus-marker tests — switching to
`insights` when the lower-cased line contains "insight" and the line contains
"#" (and likewise for "quality" and "recommend" down the elif chain), and
otherwise, when none of the three keyword-plus-marker tests fires (whether the
line lacks "#" or has "#" but none of the keywords), appending to the
currently active bucket with no switch — and on the three-heading example
document it produces exactly the claimed buckets, with `intro` empty. -/
theorem claim_C4_router_rules :
    (extract_report_sections "# Key Insights\nA\n# Data Quality\nB\n# Recommendations\nC\n"
      = ⟨"", "# Key Insights\nA\n", "# Data Quality\nB\n", "# Recommendations\nC\n\n"⟩)
    ∧ (∀ (acc : Sections × SectionName) (line : String),
        substrOf "insight" (pyLower line) = true → substrOf "#" line = true →
        routeStep acc line = (acc.1.appendLine .insights line, .insights))
    ∧ (∀ (acc : Sections × SectionName) (line : String),
        substrOf "insight" (pyLower line) = false →
        substrOf "quality" (pyLower line) = true → substrOf "#" line = true →
        routeStep acc line = (acc.1.appendLine .quality line, .quality))
    ∧ (∀ (acc : Sections × SectionName) (line : String),
        substrOf "insight" (pyLower line) = false →
        substrOf "quality" (pyLower line) = false →
        substrOf "recommend" (pyLower line) = true → substrOf "#" line = true →
        routeStep acc line = (acc.1.appendLine .recommendations line, .recommendations))
    ∧ (∀ (acc : Sections × SectionName) (line : String),
        (substrOf "insight" (pyLower line) && substrOf "#" line) = false →
        (substrOf "quality" (pyLower line) && substrOf "#" line) = false →
        (substrOf "recommend" (pyLower line) && substrOf "#" line) = false →
        routeStep acc line = (acc.1.appendLine acc.2 line, acc.2)) := by
  refine ⟨by decide, ?_, ?_, ?_, ?_⟩
  · intro acc line h1 h2
    simp [routeStep, h1, h2]
  · intro acc line h1 h2 h3
    simp [routeStep, h1, h2, h3]
  · intro acc line h1 h2 h3 h4
    simp [routeStep, h1, h2, h3, h4]
  · intro acc line h1 h2 h3
    simp [routeStep, h1, h2, h3]

/-- C4 (witness): the step rules instantiated at concrete lines — a switching
heading, a keyword-less heading (a "#" line no test matches, kept in the
current bucket), and a marker-less plain line. -/
theorem claim_C4_witness :
    routeStep (⟨"", "", "", ""⟩, .intro) "# insight"
      = ((⟨"", "", "", ""⟩ : Sections).appendLine .insights "# insight", .insights)
    ∧ routeStep (⟨"", "", "", ""⟩, .quality) "# Summary"
      = ((⟨"", "", "", ""⟩ : Sections).appendLine .quality "# Summary", .quality)
    ∧ routeStep (⟨"", "", "", ""⟩, .recommendations) "plain"
      = ((⟨"", "", "", ""⟩ : Sections).appendLine .recommendations "plain", .recommendations) :=
  ⟨claim_C4_router_rules.2.1 _ "# insight" (by decide) (by decide),
   claim_C4_router_rules.2.2.2.2 _ "# Summary" (by decide) (by decide) (by decide),
   claim_C4_router_rules.2.2.2.2 _ "plain" (by decide) (by decide) (by decide)⟩

/-- C10: every bucket text of `extract_report_sections` is a concatenation of
its stored lines each followed by exactly one newline, hence every non-empty
bucket text ends in a newline; and routing the empty string yields
`intro = "\n"` (the routed empty line plus its terminator) with the other
three buckets empty. -/
theorem claim_C10_bucket_structure :
    (∀ s : String, ∃ L : SectionLines,
        extract_report_sections s = L.render
        ∧ ((extract_report_sections s).intro = ""
            ∨ ∃ t, (extract_report_sections s).intro = t ++ "\n")
        ∧ ((extract_report_sections s).insights = ""
            ∨ ∃ t, (extract_report_sections s).insights = t ++ "\n")
        ∧ ((extract_report_sections s).quality = ""
            ∨ ∃ t, (extract_report_sections s).quality = t ++ "\n")
        ∧ ((extract_report_sections s).recommendations = ""
            ∨ ∃ t, (extract_report_sections s).recommendations = t ++ "\n"))
    ∧ extract_report_sections "" = ⟨"\n", "", "", ""⟩ := by
  constructor
  · intro s
    refine ⟨routeLines (pySplit '\n' s), extract_eq_render s, ?_, ?_, ?_, ?_⟩ <;>
      rw [extract_eq_render s]
    · exact joinNL_ends_newline _
    · exact joinNL_ends_newline _
    · exact joinNL_ends_newline _
    · exact joinNL_ends_newline _
  · decide

/-- C2: on a `Churn` column holding the mixed strings with three `"True"` of
four rows, `extract_key_metrics` reports a churn rate of `"100.0%"` — not the
`"75.0%"` the specification states — because `astype(bool)` maps every
non-empty string, `"False"` included, to `True`. -/
theorem claim_C2_churn_string_eval :
    (extract_key_metrics
        ⟨[("Churn", ⟨.objT, [.s "True", .s "True", .s "True", .s "False"]⟩)]⟩).1
      = [("churn_rate", .vstr "100.0%")]
    ∧ ("100.0%" : String) ≠ "75.0%" := by
  decide

/-- C3 (counterexample): `extract_key_metrics` is not a pure function of the
dataset — on a string-typed `Churn` column it writes a `Churn_bool` column
into the frame of the caller. -/
theorem claim_C3_counterexample :
    (extract_key_metrics
        ⟨[("Churn", ⟨.objT, [.s "True", .s "True", .s "True", .s "False"]⟩)]⟩).2
      ≠ ⟨[("Churn", ⟨.objT, [.s "True", .s "True", .s "True", .s "False"]⟩)]⟩ := by
  decide

/-- C3 (amended): `extract_key_metrics` and `generate_sample_insights` leave
every column of the dataset of the caller other than `Churn_bool` unchanged; in
particular the only mutation either performs is writing the coerced
`Churn_bool` helper column. -/
theorem claim_C3_frame (df : DataFrame) (name : String) (h : name ≠ "Churn_bool") :
    ((extract_key_metrics df).2).getCol? name = df.getCol? name
    ∧ (∀ r : Sections × DataFrame, generate_sample_insights df = .ok r →
        r.2.getCol? name = df.getCol? name) := by
  refine ⟨ekm_hasCol_eq df name h, ?_⟩
  intro r hr
  rcases gsi_frame df r hr with h1 | ⟨cb, h1⟩
  · rw [h1]
  · rw [h1, getCol?_setCol_ne _ _ _ _ h]

/-- C3 (witness): the frame property at a concrete frame and column name. -/
theorem claim_C3_frame_witness :
    ((extract_key_metrics ⟨[("Churn", ⟨.objT, [.s "x"]⟩)]⟩).2).getCol? "Churn"
      = (⟨[("Churn", ⟨.objT, [.s "x"]⟩)]⟩ : DataFrame).getCol? "Churn" :=
  (claim_C3_frame ⟨[("Churn", ⟨.objT, [.s "x"]⟩)]⟩ "Churn" (by decide)).1

/-- C5: on a zero-row dataset `generate_report` returns the fixed
"No data to analyze." sentinel, and its result does not depend on the external
generation capability or on any completion order — the generation capability
is never consulted. -/
theorem claim_C5_empty_short_circuit (df : DataFrame) (gen gen' : TaskSpec → String)
    (ord ord' : List Nat) (h : df.len = 0) :
    generate_report df gen ord = "No data to analyze."
    ∧ generate_report df gen ord = generate_report df gen' ord' := by
  constructor
  · unfold generate_report
    rw [if_pos h]
  · unfold generate_report
    rw [if_pos h, if_pos h]

/-- C5 (witness): the sentinel on a concrete empty frame. -/
theorem claim_C5_witness :
    generate_report ⟨[]⟩ (fun t => t.description) [0, 1, 2] = "No data to analyze." :=
  (claim_C5_empty_short_circuit ⟨[]⟩ (fun t => t.description)
    (fun t => t.expected_output) [0, 1, 2] [2, 1, 0] rfl).1

/-- C6: the sample used by the pipeline has size `min(row_count, 50)`: a frame
of at most 50 rows is passed through whole, in order; a larger frame is
reduced to exactly 50 rows at seed-42-determined, pairwise-distinct row
indices (a draw without replacement) — and, the draw being a pure function of
frame and seed, two runs on the same dataset select identical rows. -/
theorem claim_C6_sample_bound (df : DataFrame) (hwf : df.wf) :
    (df.len ≤ 50 → reportSample df = df)
    ∧ (df.len > 50 →
        (reportSample df).len = 50
        ∧ ∃ idxs : List Nat, idxs.Nodup ∧ idxs.length = 50 ∧ (∀ i ∈ idxs, i < df.len)
            ∧ reportSample df = df.selectRows idxs) := by
  constructor
  · intro h
    unfold reportSample
    rw [if_neg (by omega)]
  · intro h
    have h50 : (50 : Nat) ≤ df.len := Nat.le_of_lt h
    have hmem : ∀ i ∈ sampleIndices 42 df.len 50, i < df.len :=
      fun i hi => sampleIndices_mem 42 df.len 50 i hi
    have hlen : (sampleIndices 42 df.len 50).length = 50 := sampleIndices_length _ _ _ h50
    have hs : reportSample df = df.selectRows (sampleIndices 42 df.len 50) := by
      unfold reportSample
      rw [if_pos h]
      rfl
    refine ⟨?_, sampleIndices 42 df.len 50, sampleIndices_nodup _ _ _, hlen, hmem, hs⟩
    rw [hs, selectRows_len df _ hwf hmem (len_pos_cols_ne df (by omega)), hlen]

/-- C6 (witness): a one-row frame is passed through whole. -/
theorem claim_C6_witness :
    reportSample ⟨[("A", ⟨.numT, [.n ⟨1, 1⟩]⟩)]⟩ = ⟨[("A", ⟨.numT, [.n ⟨1, 1⟩]⟩)]⟩ :=
  (claim_C6_sample_bound ⟨[("A", ⟨.numT, [.n ⟨1, 1⟩]⟩)]⟩
    (by intro c hc; cases List.mem_singleton.mp hc; rfl)).1 (by decide)

/-- C7: on a non-empty dataset `generate_report` returns the concatenation of
the three task results in the fixed order insights–quality–recommendations,
for every assignment of result texts to the tasks and every completion order
of the three tasks. -/
theorem claim_C7_fixed_assembly (df : DataFrame) (gen : TaskSpec → String) (ord : List Nat)
    (h : ¬ df.len = 0) (hp : ord.Perm [0, 1, 2]) :
    generate_report df gen ord
      = gen (insights_task (reportSample df).to_csv)
        ++ (gen (quality_task (reportSample df).to_csv)
          ++ gen (recommendations_task (reportSample df).to_csv)) := by
  unfold generate_report
  rw [if_neg h]
  exact crewKickoff_perm _ _ _ gen ord hp

/-- C7 (witness): the fixed assembly on a concrete one-row frame with the
tasks completing in the order recommendations–insights–quality. -/
theorem claim_C7_witness :
    generate_report ⟨[("A", ⟨.numT, [.n ⟨1, 1⟩]⟩)]⟩ (fun t => t.agent.role ++ ";") [2, 0, 1]
      = (fun t : TaskSpec => t.agent.role ++ ";")
          (insights_task (reportSample ⟨[("A", ⟨.numT, [.n ⟨1, 1⟩]⟩)]⟩).to_csv)
        ++ ((fun t : TaskSpec => t.agent.role ++ ";")
            (quality_task (reportSample ⟨[("A", ⟨.numT, [.n ⟨1, 1⟩]⟩)]⟩).to_csv)
          ++ (fun t : TaskSpec => t.agent.role ++ ";")
            (recommendations_task (reportSample ⟨[("A", ⟨.numT, [.n ⟨1, 1⟩]⟩)]⟩).to_csv)) :=
  claim_C7_fixed_assembly ⟨[("A", ⟨.numT, [.n ⟨1, 1⟩]⟩)]⟩
    (fun t => t.agent.role ++ ";") [2, 0, 1] (by decide) (by decide)

theorem mem_metricKeys_origin (df : DataFrame) (k : String) (h : k ∈ metricKeys df) :
    (k = "plan_distribution" ∧ df.hasCol "Plan" = true)
    ∨ ((k = "average_spend" ∨ k = "median_spend" ∨ k = "max_spend")
        ∧ df.hasCol "MonthlySpend" = true)
    ∨ (k = "churn_rate" ∧ df.hasCol "Churn" = true)
    ∨ ((k = "average_tenure" ∨ k = "median_tenure") ∧ df.hasCol "Tenure" = true)
    ∨ (k = "top_industries" ∧ df.hasCol "Industry" = true)
    ∨ (k = "top_countries" ∧ df.hasCol "Country" = true) := by
  have hcb : ∀ nm : String, nm ≠ "Churn_bool" →
      ((churnMetrics df).2).hasCol nm = df.hasCol nm := by
    intro nm hnm
    unfold DataFrame.hasCol
    have hg : ((churnMetrics df).2).getCol? nm = df.getCol? nm := by
      rcases churnMetrics_frame df with h1 | ⟨cb, h1⟩
      · rw [h1]
      · rw [h1, getCol?_setCol_ne _ _ _ _ hnm]
    rw [hg]
  rcases mem_metricKeys_cases df k h with h1 | h1 | h1 | h1 | h1 | h1
  · exact Or.inl (planMetrics_keys df k h1)
  · exact Or.inr (Or.inl (spendMetrics_keys df k h1))
  · exact Or.inr (Or.inr (Or.inl (churnMetrics_keys df k h1)))
  · have h2 := tenureMetrics_keys _ k h1
    rw [hcb "Tenure" (by decide)] at h2
    exact Or.inr (Or.inr (Or.inr (Or.inl h2)))
  · have h2 := industryMetrics_keys _ k h1
    rw [hcb "Industry" (by decide)] at h2
    exact Or.inr (Or.inr (Or.inr (Or.inr (Or.inl h2))))
  · have h2 := countryMetrics_keys _ k h1
    rw [hcb "Country" (by decide)] at h2
    exact Or.inr (Or.inr (Or.inr (Or.inr (Or.inr h2))))

theorem key_absent_of_hasCol_false (df : DataFrame) (k : String) (colName : String)
    (hf : df.hasCol colName = false)
    (hk : (k = "plan_distribution" → colName = "Plan")
      ∧ ((k = "average_spend" ∨ k = "median_spend" ∨ k = "max_spend") → colName = "MonthlySpend")
      ∧ (k = "churn_rate" → colName = "Churn")
      ∧ ((k = "average_tenure" ∨ k = "median_tenure") → colName = "Tenure")
      ∧ (k = "top_industries" → colName = "Industry")
      ∧ (k = "top_countries" → colName = "Country")) :
    k ∉ metricKeys df := by
  intro hmem
  rcases mem_metricKeys_origin df k hmem with ⟨h1, h2⟩ | ⟨h1, h2⟩ | ⟨h1, h2⟩ | ⟨h1, h2⟩ | ⟨h1, h2⟩ | ⟨h1, h2⟩
  · rw [hk.1 h1] at hf; rw [hf] at h2; exact Bool.noConfusion h2
  · rw [hk.2.1 h1] at hf; rw [hf] at h2; exact Bool.noConfusion h2
  · rw [hk.2.2.1 h1] at hf; rw [hf] at h2; exact Bool.noConfusion h2
  · rw [hk.2.2.2.1 h1] at hf; rw [hf] at h2; exact Bool.noConfusion h2
  · rw [hk.2.2.2.2.1 h1] at hf; rw [hf] at h2; exact Bool.noConfusion h2
  · rw [hk.2.2.2.2.2 h1] at hf; rw [hf] at h2; exact Bool.noConfusion h2

/-- C8: for each optional column of the fixed list, if the column is absent
from the dataset then `extract_key_metrics` omits the corresponding key(s)
from the metrics dictionary (and, the embedding being total, the extraction
returns without error); a signup-source key is never produced at all. -/
theorem claim_C8_missing_column_keys (df : DataFrame) :
    (df.hasCol "Plan" = false → "plan_distribution" ∉ metricKeys df)
    ∧ (df.hasCol "MonthlySpend" = false →
        "average_spend" ∉ metricKeys df
        ∧ "median_spend" ∉ metricKeys df
        ∧ "max_spend" ∉ metricKeys df)
    ∧ (df.hasCol "Churn" = false → "churn_rate" ∉ metricKeys df)
    ∧ (df.hasCol "Tenure" = false →
        "average_tenure" ∉ metricKeys df ∧ "median_tenure" ∉ metricKeys df)
    ∧ (df.hasCol "Industry" = false → "top_industries" ∉ metricKeys df)
    ∧ (df.hasCol "Country" = false → "top_countries" ∉ metricKeys df)
    ∧ "signup_sources" ∉ metricKeys df := by
  refine ⟨?_, ?_, ?_, ?_, ?_, ?_, ?_⟩
  · intro hf
    exact key_absent_of_hasCol_false df _ "Plan" hf (by decide)
  · intro hf
    exact ⟨key_absent_of_hasCol_false df _ "MonthlySpend" hf (by decide),
      key_absent_of_hasCol_false df _ "MonthlySpend" hf (by decide),
      key_absent_of_hasCol_false df _ "MonthlySpend" hf (by decide)⟩
  · intro hf
    exact key_absent_of_hasCol_false df _ "Churn" hf (by decide)
  · intro hf
    exact ⟨key_absent_of_hasCol_false df _ "Tenure" hf (by decide),
      key_absent_of_hasCol_false df _ "Tenure" hf (by decide)⟩
  · intro hf
    exact key_absent_of_hasCol_false df _ "Industry" hf (by decide)
  · intro hf
    exact key_absent_of_hasCol_false df _ "Country" hf (by decide)
  · intro hmem
    rcases mem_metricKeys_origin df _ hmem with ⟨h1, _⟩ | ⟨h1, _⟩ | ⟨h1, _⟩ | ⟨h1, _⟩ | ⟨h1, _⟩ | ⟨h1, _⟩
    · exact absurd h1 (by decide)
    · rcases h1 with h1 | h1 | h1 <;> exact absurd h1 (by decide)
    · exact absurd h1 (by decide)
    · rcases h1 with h1 | h1 <;> exact absurd h1 (by decide)
    · exact absurd h1 (by decide)
    · exact absurd h1 (by decide)

/-- C8 (witness): on a frame with no columns every optional key is absent. -/
theorem claim_C8_witness :
    "plan_distribution" ∉ metricKeys ⟨[]⟩ ∧ "churn_rate" ∉ metricKeys ⟨[]⟩ :=
  ⟨(claim_C8_missing_column_keys ⟨[]⟩).1 (by decide),
   (claim_C8_missing_column_keys ⟨[]⟩).2.2.1 (by decide)⟩

/-- C9 (counterexample): on a dataset with a present but value-less `Plan`
column, `generate_sample_insights` raises (`plan_counts.index[0]` is an
`IndexError`) instead of returning any text. -/
theorem claim_C9_counterexample :
    generate_sample_insights ⟨[("Plan", ⟨.objT, []⟩)]⟩ = .error () := by
  decide

/-- C9 (amended): whenever `generate_sample_insights` returns (in particular
whenever any present `Plan` column has a countable value), both the insights
and the recommendations texts are non-empty — the sub-50-character fallback
appends the fixed boilerplate paragraph. -/
theorem claim_C9_nonempty (df : DataFrame) (r : Sections × DataFrame)
    (h : generate_sample_insights df = .ok r) :
    r.1.insights ≠ "" ∧ r.1.recommendations ≠ "" := by
  rcases gsi_sections df r h with ⟨ins, hins⟩
  rw [hins]
  exact genericFallbacks_ne ins

/-- C9 (witness): the non-emptiness at the empty frame, whose fallback result
is the boilerplate applied to the initial dictionary. -/
theorem claim_C9_witness :
    (genericFallbacks sampleInsightsInit).insights ≠ ""
    ∧ (genericFallbacks sampleInsightsInit).recommendations ≠ "" :=
  claim_C9_nonempty ⟨[]⟩ (genericFallbacks sampleInsightsInit, ⟨[]⟩) (by decide)
